import Mathlib

/-!
Verification of the document-synchronization and session-authentication
subsystem of the karta canvas application (Express server `src/server/index.js`
plus the client canvas page `src/client/src/pages/Dashboard.tsx`).

The server handlers are embedded as pure functions over an explicit list of
database rows; the Supabase query-builder calls are translated clause by
clause (`.eq` filters become `List.filter`, `.single()` becomes a match that
succeeds exactly when the filtered list has one element).  The client
auto-save logic is embedded as a small-step state machine over a session
record, with the `setTimeout` debounce represented by an absolute deadline.
-/

/-! ## JavaScript values as the server observes them

The server treats the canvas `snapshot` as an opaque blob: it is stored and
returned without inspection.  The only structure the handlers ever probe is
(a) whether a request-body field is `undefined` (absent), and (b) whether
`.trim()` can be called on the value (it succeeds on strings and throws a
`TypeError` on `null`, numbers, objects and arrays).  `JVal` therefore keeps
strings and `null` explicit and collapses every other JSON value into an
opaque `blob`; `JVal.blob []` stands for the empty object. -/

inductive JVal where
  | null : JVal
  | str : String → JVal
  | blob : List Nat → JVal
  deriving DecidableEq, Repr

/-- The JavaScript call `v.trim()`: defined (returns the trimmed string) only when
`v` is a string; on any other value the call throws a `TypeError`, modelled
as `none`. -/
def jsTrim : JVal → Option String
  | .str s => some s.trim
  | _ => none

/-- A request-body field, distinguishing an absent field (`undefined` after
destructuring) from a present one. -/
inductive JsField where
  | undef : JsField
  | val : JVal → JsField
  deriving DecidableEq, Repr

/-! ## Server data model (`tldraw_drawings` rows) -/

/-- One row of the `tldraw_drawings` table. -/
structure Canvas where
  id : Nat
  user_id : Nat
  drawing_name : String
  snapshot : JVal
  deriving DecidableEq, Repr

/-- The `tldraw_drawings` table: a list of rows. -/
abbrev Db := List Canvas

/-- Distinct primary keys: no two rows share an `id`. -/
def UniqueIds (db : Db) : Prop := (db.map Canvas.id).Nodup

/-! ## GET /api/canvases/:id  (src/server/index.js lines 224-246)

`select('*').eq('id', canvasId).eq('user_id', userId).single()` — the
`.single()` call errors unless the filtered set has exactly one row, and the
handler maps that error (or a null row) to 404. -/

inductive GetResult where
  | ok : Canvas → GetResult
  | notFound : GetResult
  deriving DecidableEq, Repr

def GetResult.status : GetResult → Nat
  | .ok _ => 200
  | .notFound => 404

def getCanvas (userId canvasId : Nat) (db : Db) : GetResult :=
  match db.filter (fun c => c.id == canvasId && c.user_id == userId) with
  | [c] => .ok c
  | _ => .notFound

/-! ## DELETE /api/canvases/:id  (src/server/index.js lines 328-349)

`delete().eq('id', canvasId).eq('user_id', userId)` — a filtered delete that
reports no error when zero rows match; the handler returns the success
message unless the store itself reports an error, which becomes a 500.
`storeFails` models the backing store reporting an error. -/

inductive DeleteResult where
  | deleted : DeleteResult
  | storeError : DeleteResult
  deriving DecidableEq, Repr

def DeleteResult.status : DeleteResult → Nat
  | .deleted => 200
  | .storeError => 500

def deleteCanvas (userId canvasId : Nat) (storeFails : Bool) (db : Db) :
    DeleteResult × Db :=
  if storeFails then (.storeError, db)
  else (.deleted, db.filter (fun c => !(c.id == canvasId && c.user_id == userId)))

/-! ## PATCH /api/canvases/:id  (src/server/index.js lines 281-325)

Order of operations in the handler: destructure `{snapshot, drawing_name}`
from the body; ownership existence check (`.eq('id').eq('user_id').single()`),
404 if absent; build `updateData` from the supplied fields — evaluating
`drawing_name.trim()`, which throws on non-strings and is converted to a 500
by the outer catch; 400 if no field was supplied; run the update filtered by
`id` only and return the updated row. -/

inductive PatchResult where
  | ok : Canvas → PatchResult
  | notFound : PatchResult
  | noFields : PatchResult
  | internalError : PatchResult
  | updateError : PatchResult
  deriving DecidableEq, Repr

def PatchResult.status : PatchResult → Nat
  | .ok _ => 200
  | .notFound => 404
  | .noFields => 400
  | .internalError => 500
  | .updateError => 500

structure PatchBody where
  snapshot : JsField
  drawing_name : JsField
  deriving DecidableEq, Repr

/-- Apply the built `updateData` to one row: only supplied fields are
written. -/
def applyUpdate (snap : Option JVal) (name : Option String) (c : Canvas) :
    Canvas :=
  { c with
    snapshot := snap.getD c.snapshot
    drawing_name := name.getD c.drawing_name }

/-- The `.update(updateData).eq('id', canvasId).select().single()` tail of the
handler: update every row matching the id, then return the (single) updated
row, with a store error mapped to 500. -/
def runUpdate (canvasId : Nat) (snap : Option JVal) (name : Option String)
    (db : Db) : PatchResult × Db :=
  let db' := db.map (fun c => if c.id == canvasId then applyUpdate snap name c else c)
  match db'.filter (fun c => c.id == canvasId) with
  | [c] => (.ok c, db')
  | _ => (.updateError, db')

def patchCanvas (userId canvasId : Nat) (body : PatchBody) (db : Db) :
    PatchResult × Db :=
  match db.filter (fun c => c.id == canvasId && c.user_id == userId) with
  | [_] =>
    let snapOpt : Option JVal :=
      match body.snapshot with
      | .undef => none
      | .val v => some v
    match body.drawing_name with
    | .val v =>
      match jsTrim v with
      | none => (.internalError, db)
      | some nm => runUpdate canvasId snapOpt (some nm) db
    | .undef =>
      match snapOpt with
      | none => (.noFields, db)
      | some sv => runUpdate canvasId (some sv) none db
  | _ => (.notFound, db)

/-! ## Session tokens  (src/server/index.js lines 29-35 and the jsonwebtoken
contract)

`generateToken` signs `{userId, email}` with `expiresIn: '7d'`; the
jsonwebtoken library stores `exp = iat + 604800` seconds and `jwt.verify`
rejects a token whose signature does not match the secret or whose `exp` is
less than or equal to the verification clock (`TokenExpiredError` fires as
soon as `clock >= exp`).  The signature is modelled as carrying the signing
secret; verification compares it against the verifier's secret. -/

structure AuthUser where
  id : Nat
  email : String
  created_at : Nat
  deriving DecidableEq, Repr

structure TokenClaims where
  userId : Nat
  email : String
  deriving DecidableEq, Repr

structure SessionToken where
  claims : TokenClaims
  exp : Nat
  sig : Nat
  deriving DecidableEq, Repr

/-- Seven days in seconds, the `'7d'` lifetime passed to `jwt.sign`. -/
def sevenDays : Nat := 7 * 24 * 60 * 60

def generateToken (secret now : Nat) (user : AuthUser) : SessionToken :=
  { claims := { userId := user.id, email := user.email }
    exp := now + sevenDays
    sig := secret }

/-- The call `jwt.verify(token, secret)` at clock time `now`: `none` is the thrown
`JsonWebTokenError`/`TokenExpiredError`, which the middleware maps to 401. -/
def verifyJwt (secret now : Nat) (t : SessionToken) : Option TokenClaims :=
  if t.sig = secret then
    if now < t.exp then some t.claims else none
  else none

/-! ## POST /api/auth/signup  (src/server/index.js lines 60-119)

Falsiness check on the destructured fields, then the length check, then
`supabase.auth.admin.createUser` (its error — e.g. a duplicate account —
becomes a 400 with the store's message), then a best-effort profile insert
whose failure is only logged, then the token and the response.  The success
response is sent with `res.json(...)`, i.e. HTTP status 200.  The external
identity store is modelled by the `conflict` flag and the `newId`/`createdAt`
values it would mint. -/

/-- JavaScript falsiness of a possibly-absent string field: `undefined` and
`''` are falsy. -/
def falsy : Option String → Bool
  | none => true
  | some s => s == ""

inductive SignupResult where
  | missingFields : SignupResult
  | shortPassword : SignupResult
  | storeConflict : SignupResult
  | created : AuthUser → SessionToken → SignupResult
  deriving DecidableEq, Repr

/-- HTTP status of each signup outcome.  The success branch uses `res.json`,
whose status is 200. -/
def SignupResult.status : SignupResult → Nat
  | .missingFields => 400
  | .shortPassword => 400
  | .storeConflict => 400
  | .created _ _ => 200

def signup (secret now : Nat) (email password : Option String)
    (conflict : Bool) (newId createdAt : Nat) : SignupResult :=
  if falsy email || falsy password then .missingFields
  else
    match password with
    | none => .missingFields
    | some pw =>
      if pw.length < 6 then .shortPassword
      else if conflict then .storeConflict
      else
        let user : AuthUser :=
          { id := newId, email := email.getD "", created_at := createdAt }
        .created user (generateToken secret now user)

/-! ## Profiles, the signin self-heal and GET /api/auth/me

`user_profiles` rows (src/server/index.js lines 84-91).  The signin handler
(lines 139-156) contains the only profile self-heal: after a successful
password check it selects the profile by id and inserts one when the select
does not return a single row.  The `/api/auth/me` handler (lines 188-221)
only selects (profile joined with the user's drawings) and returns 404 when
the select errors; it performs no insert. -/

structure Profile where
  id : Nat
  email : String
  deriving DecidableEq, Repr

/-- The signin safety check: `select('id').eq('id', user.id).single()`; when
`data` is not a single row the handler inserts a fresh profile. -/
def ensureProfile (user : AuthUser) (profiles : List Profile) : List Profile :=
  match profiles.filter (fun p => p.id == user.id) with
  | [_] => profiles
  | _ => profiles ++ [{ id := user.id, email := user.email }]

inductive MeResult where
  | ok : Profile → List Canvas → MeResult
  | notFound : MeResult
  deriving DecidableEq, Repr

def MeResult.status : MeResult → Nat
  | .ok _ _ => 200
  | .notFound => 404

/-- GET /api/auth/me: the joined select
`from('user_profiles').select('*, drawings:tldraw_drawings(*)').eq('id',
userId).single()`; a select error (no single matching profile) is returned
as 404 directly — the handler never writes to `user_profiles`. -/
def authMe (userId : Nat) (profiles : List Profile) (drawings : Db) :
    MeResult :=
  match profiles.filter (fun p => p.id == userId) with
  | [p] => .ok p (drawings.filter (fun c => c.user_id == userId))
  | _ => .notFound

/-! ## Client Document Session  (src/client/src/pages/Dashboard.tsx, Canvas
component)

The page keeps `saveStatus ('saved' | 'saving' | 'unsaved')`, a single
debounce timeout (`saveTimeoutRef`) and the live editor document.  It is
embedded as a record stepped by events:

* a document mutation fires the `editor.store.listen` callback (lines
  140-152): set status to `unsaved`, clear any previous timeout and schedule
  `saveCanvas` three seconds later;
* `saveCanvas` (lines 110-123): set status to `saving`, read the *current*
  snapshot via `editorRef.current.getSnapshot()` and start the network
  write; on completion, status becomes `saved` on success and `unsaved` on
  failure.  Nothing in it checks whether another write is already in flight,
  and no queued-intent flag exists anywhere in the component;
* `handleManualSave` (lines 126-134): clear any pending timeout and call
  `saveCanvas` immediately.  It is reachable from the Ctrl+S/Cmd+S key
  handler unconditionally (lines 172-182), and from the Save Now button,
  which is rendered with `disabled={saveStatus === 'saving'}` (line 247) so
  the button path is a no-op while a write is in flight.

Time is a `Nat`; the document is a mutation counter whose value is the
snapshot a write would read; `writes` logs the snapshot of every write
started, in order, and `inFlight` counts writes started but not completed. -/

inductive SaveStatus where
  | saved : SaveStatus
  | saving : SaveStatus
  | unsaved : SaveStatus
  deriving DecidableEq, Repr

structure Session where
  status : SaveStatus
  timer : Option Nat
  doc : Nat
  inFlight : Nat
  writes : List Nat
  deriving DecidableEq, Repr

/-- State of a freshly loaded canvas page: saved, no pending timeout, no
write in flight. -/
def initSession : Session :=
  { status := .saved, timer := none, doc := 0, inFlight := 0, writes := [] }

/-- The `saveCanvas` callback: transition to `saving` and start a write carrying the
current live snapshot. -/
def saveCanvas (s : Session) : Session :=
  { s with
    status := .saving
    inFlight := s.inFlight + 1
    writes := s.writes ++ [s.doc] }

/-- The events a session reacts to.  `complete ok` is the settlement of one
in-flight write (`ok = false` is a network failure). -/
inductive Ev where
  | mutate : Ev
  | manualKey : Ev
  | manualButton : Ev
  | complete : Bool → Ev
  deriving DecidableEq, Repr

/-- The event handlers, exactly as the component wires them. -/
def handle (t : Nat) (e : Ev) (s : Session) : Session :=
  match e with
  | .mutate =>
    { s with status := .unsaved, timer := some (t + 3), doc := s.doc + 1 }
  | .manualKey => saveCanvas { s with timer := none }
  | .manualButton =>
    if s.status == .saving then s
    else saveCanvas { s with timer := none }
  | .complete ok =>
    { s with
      inFlight := s.inFlight - 1
      status := if ok then .saved else .unsaved }

/-- A scheduled `setTimeout` callback runs once its deadline is reached; the
event loop runs it before a later event is handled. -/
def fireTimerIfDue (t : Nat) (s : Session) : Session :=
  match s.timer with
  | some d => if d ≤ t then saveCanvas { s with timer := none } else s
  | none => s

def stepEv (t : Nat) (e : Ev) (s : Session) : Session :=
  handle t e (fireTimerIfDue t s)

/-- Run a timestamped event trace. -/
def run (evs : List (Nat × Ev)) (s : Session) : Session :=
  evs.foldl (fun st e => stepEv e.1 e.2 st) s

/-- Quiescence after the last event: the pending debounce timeout, if any,
fires. -/
def settle (s : Session) : Session :=
  match s.timer with
  | some _ => saveCanvas { s with timer := none }
  | none => s

/-- Burst condition `chainFrom d ts`: starting with a pending deadline `d`, each time in `ts`
strictly precedes the deadline pending at that moment (so no debounce timeout
fires during the burst), each mutation rescheduling the deadline to three
units after itself. -/
def chainFrom : Option Nat → List Nat → Prop
  | _, [] => True
  | none, t :: ts => chainFrom (some (t + 3)) ts
  | some d, t :: ts => t < d ∧ chainFrom (some (t + 3)) ts

/-- A burst of mutation times, each fired within less than the 3-unit
debounce interval of the previous one, starting from an idle session. -/
def TightBurst (ts : List Nat) : Prop := chainFrom none ts

/-- Turn mutation times into a mutation event trace. -/
def mutTrace (ts : List Nat) : List (Nat × Ev) :=
  ts.map (fun t => (t, Ev.mutate))

/-! ## Helper lemmas about filtered lookups under unique ids -/

/-- Under unique primary keys, two rows with the same `id` are the same row. -/
theorem eq_of_mem_of_id_eq {db : Db} {c c' : Canvas} (hn : UniqueIds db)
    (hc : c ∈ db) (hc' : c' ∈ db) (hid : c.id = c'.id) : c = c' :=
  List.inj_on_of_nodup_map hn hc hc' hid

/-- A filter whose predicate pins down the `id` of a member row returns
exactly that row. -/
theorem filter_eq_singleton {db : Db} {c : Canvas} (hn : UniqueIds db)
    (hc : c ∈ db) (p : Canvas → Bool) (hp : p c = true)
    (hq : ∀ x ∈ db, p x = true → x.id = c.id) : db.filter p = [c] := by
  induction db with
  | nil => cases hc
  | cons a tl ih =>
    simp only [UniqueIds, List.map_cons, List.nodup_cons] at hn
    rcases List.mem_cons.mp hc with rfl | hc
    · have htl : tl.filter p = [] := by
        rw [List.filter_eq_nil_iff]
        intro x hx hpx
        have hid := hq x (List.mem_cons_of_mem _ hx) hpx
        exact hn.1 (hid ▸ List.mem_map_of_mem Canvas.id hx)
      simp [List.filter_cons, hp, htl]
    · have hpa : p a = false := by
        by_contra h
        have hpa := eq_true_of_ne_false h
        have hid := hq a (List.mem_cons_self a tl) hpa
        exact hn.1 (hid ▸ List.mem_map_of_mem Canvas.id hc)
      have := ih hn.2 hc (fun x hx hpx => hq x (List.mem_cons_of_mem _ hx) hpx)
      simp [List.filter_cons, hpa, this]

/-- A filter whose predicate no member row satisfies returns nothing. -/
theorem filter_eq_nil {db : Db} (p : Canvas → Bool)
    (h : ∀ x ∈ db, p x = false) : db.filter p = [] := by
  rw [List.filter_eq_nil_iff]
  intro x hx
  simp [h x hx]

/-- In a table with unique ids, a row owned by `A` makes every ownership
predicate for a different requester `B` fail on every row of the table. -/
theorem cross_tenant_no_match {db : Db} {c : Canvas} {A B : Nat}
    (hn : UniqueIds db) (hc : c ∈ db) (hown : c.user_id = A) (hAB : A ≠ B) :
    ∀ x ∈ db, (x.id == c.id && x.user_id == B) = false := by
  intro x hx
  by_cases hid : x.id = c.id
  · have hxc : x = c := eq_of_mem_of_id_eq hn hx hc hid
    subst hxc
    simp only [Bool.and_eq_false_iff, beq_eq_false_iff_ne, ne_eq]
    right
    rw [hown]
    exact hAB
  · simp [hid]

/-! ## Claim C1 — cross-tenant access -/

/-- C1 (claim as stated, refuted on the delete leg): identity 20 requests
deletion of canvas 1, which is owned by identity 10.  The claim demands
`NotFound` (404); the handler's filtered delete matches no row, reports no
error, and the handler answers 200 with the success message, leaving the
table unchanged. -/
theorem c1_counterexample :
    ((deleteCanvas 20 1 false
        [{ id := 1, user_id := 10, drawing_name := "doc", snapshot := .blob [] }]).1).status
      = 200 ∧
    (deleteCanvas 20 1 false
        [{ id := 1, user_id := 10, drawing_name := "doc", snapshot := .blob [] }]).2
      = [{ id := 1, user_id := 10, drawing_name := "doc", snapshot := .blob [] }] := by
  constructor <;> rfl

/-- C1 (amended): for identities `A ≠ B` and a document owned by `A`, a `get`
or `update` by `B` yields `NotFound` (never `Forbidden`, never success), but a
`delete` by `B` returns the 200 success message and silently does nothing. -/
theorem c1_cross_tenant (A B : Nat) (db : Db) (c : Canvas) (body : PatchBody)
    (hn : UniqueIds db) (hc : c ∈ db) (hown : c.user_id = A) (hAB : A ≠ B) :
    getCanvas B c.id db = .notFound ∧
    patchCanvas B c.id body db = (.notFound, db) ∧
    deleteCanvas B c.id false db = (.deleted, db) := by
  have hno := cross_tenant_no_match hn hc hown hAB
  have hnil : db.filter (fun x => x.id == c.id && x.user_id == B) = [] :=
    filter_eq_nil _ hno
  refine ⟨?_, ?_, ?_⟩
  · unfold getCanvas
    rw [hnil]
  · unfold patchCanvas
    rw [hnil]
  · unfold deleteCanvas
    simp only [Bool.false_eq_true, if_false]
    rw [List.filter_eq_self.mpr (fun a ha => by rw [hno a ha]; rfl)]

/-- Witness for `c1_cross_tenant` at a concrete table. -/
theorem c1_cross_tenant_witness :
    getCanvas 20 1
        [{ id := 1, user_id := 10, drawing_name := "doc", snapshot := .blob [] }]
      = .notFound ∧
    patchCanvas 20 1 { snapshot := .undef, drawing_name := .undef }
        [{ id := 1, user_id := 10, drawing_name := "doc", snapshot := .blob [] }]
      = (.notFound,
         [{ id := 1, user_id := 10, drawing_name := "doc", snapshot := .blob [] }]) ∧
    deleteCanvas 20 1 false
        [{ id := 1, user_id := 10, drawing_name := "doc", snapshot := .blob [] }]
      = (.deleted,
         [{ id := 1, user_id := 10, drawing_name := "doc", snapshot := .blob [] }]) :=
  c1_cross_tenant 10 20
    [{ id := 1, user_id := 10, drawing_name := "doc", snapshot := .blob [] }]
    { id := 1, user_id := 10, drawing_name := "doc", snapshot := .blob [] }
    { snapshot := .undef, drawing_name := .undef }
    (by unfold UniqueIds; decide) (by decide) rfl (by decide)

/-! ## Claim C9 — idempotent filtered delete -/

/-- C9: with a healthy store, `delete(ownerId, docId)` always answers the 200
success message and removes exactly the rows matching both the id and the
owner; when no row matches (non-existent or non-owned id) the table is
untouched and the call still succeeds silently; only a backing-store failure
produces the 500 `StoreError`. -/
theorem c9_delete_idempotent (userId canvasId : Nat) (db : Db) :
    (deleteCanvas userId canvasId false db).1 = .deleted ∧
    (deleteCanvas userId canvasId false db).2 =
      db.filter (fun c => !(c.id == canvasId && c.user_id == userId)) ∧
    ((∀ c ∈ db, (c.id == canvasId && c.user_id == userId) = false) →
      deleteCanvas userId canvasId false db = (.deleted, db)) ∧
    (deleteCanvas userId canvasId true db).1 = .storeError := by
  refine ⟨rfl, rfl, ?_, rfl⟩
  intro h
  unfold deleteCanvas
  simp only [Bool.false_eq_true, if_false]
  rw [List.filter_eq_self.mpr (fun a ha => by rw [h a ha]; rfl)]

/-- Witness for `c9_delete_idempotent`: deleting id 2 as user 1 from a table
holding only canvas 3 is a silent no-op. -/
theorem c9_delete_idempotent_witness :
    (deleteCanvas 1 2 false
        [{ id := 3, user_id := 1, drawing_name := "keep", snapshot := .null }]).1
      = .deleted ∧
    deleteCanvas 1 2 false
        [{ id := 3, user_id := 1, drawing_name := "keep", snapshot := .null }]
      = (.deleted,
         [{ id := 3, user_id := 1, drawing_name := "keep", snapshot := .null }]) :=
  ⟨(c9_delete_idempotent 1 2
      [{ id := 3, user_id := 1, drawing_name := "keep", snapshot := .null }]).1,
   (c9_delete_idempotent 1 2
      [{ id := 3, user_id := 1, drawing_name := "keep", snapshot := .null }]).2.2.1
      (by decide)⟩

/-! ## Claim C4 — profile self-heal on current-user reads -/

/-- C4 (claim as stated, refuted): an authenticated `GET /api/auth/me` for
identity 1 whose companion profile row is absent answers 404 immediately.
The handler only runs the joined select and maps its error to 404; no
creation is attempted before responding, so the claimed self-heal (which
would have created the profile and returned the user) does not happen. -/
theorem c4_counterexample :
    authMe 1 [] [] = .notFound ∧ (MeResult.notFound).status = 404 := by
  constructor <;> rfl

/-- C4 (amended): `GET /api/auth/me` performs no self-heal — when the profile
row for the identity is absent it returns 404 without creating anything.  The
only profile self-heal lives in the signin handler: its safety check inserts
the missing profile, after which a current-user read succeeds. -/
theorem c4_self_heal_only_in_signin (userId : Nat) (profiles : List Profile)
    (drawings : Db) (u : AuthUser)
    (habsent : profiles.filter (fun p => p.id == userId) = [])
    (habsent' : profiles.filter (fun p => p.id == u.id) = []) :
    authMe userId profiles drawings = .notFound ∧
    ensureProfile u profiles = profiles ++ [{ id := u.id, email := u.email }] ∧
    authMe u.id (ensureProfile u profiles) drawings =
      .ok { id := u.id, email := u.email }
        (drawings.filter (fun c => c.user_id == u.id)) := by
  refine ⟨?_, ?_, ?_⟩
  · unfold authMe
    rw [habsent]
  · unfold ensureProfile
    rw [habsent']
  · unfold ensureProfile authMe
    rw [habsent', List.filter_append, habsent']
    simp

/-- Witness for `c4_self_heal_only_in_signin` with an empty profile table. -/
theorem c4_self_heal_only_in_signin_witness :
    authMe 1 [] [] = .notFound ∧
    ensureProfile { id := 1, email := "a@b.c", created_at := 0 } [] =
      [] ++ [{ id := 1, email := "a@b.c" }] ∧
    authMe 1 (ensureProfile { id := 1, email := "a@b.c", created_at := 0 } []) [] =
      .ok { id := 1, email := "a@b.c" } (([] : Db).filter (fun c => c.user_id == 1)) :=
  c4_self_heal_only_in_signin 1 [] [] { id := 1, email := "a@b.c", created_at := 0 }
    rfl rfl

/-! ## Claim C6 — token issue/verify round trip and expiry -/

/-- C6: a token issued by `generateToken` verifies successfully at the moment
of issue (well before its 7-day expiry) and yields the identity's claims;
verification of the same token fails at every instant from the expiry
boundary `now + sevenDays` onward — jsonwebtoken raises `TokenExpiredError`
exactly when the verification clock reaches `exp`. -/
theorem c6_token_lifecycle (secret now t : Nat) (u : AuthUser)
    (hexp : now + sevenDays ≤ t) :
    verifyJwt secret now (generateToken secret now u) =
      some { userId := u.id, email := u.email } ∧
    verifyJwt secret t (generateToken secret now u) = none ∧
    verifyJwt secret (now + sevenDays) (generateToken secret now u) = none := by
  unfold verifyJwt generateToken
  unfold sevenDays at hexp ⊢
  refine ⟨?_, ?_, ?_⟩ <;> simp
  omega

/-- Witness for `c6_token_lifecycle`: issue at time 0, verify at time 0 and
at the expiry instant. -/
theorem c6_token_lifecycle_witness :
    verifyJwt 7 0 (generateToken 7 0 { id := 1, email := "a@b.c", created_at := 0 }) =
      some { userId := 1, email := "a@b.c" } ∧
    verifyJwt 7 604800 (generateToken 7 0 { id := 1, email := "a@b.c", created_at := 0 }) = none ∧
    verifyJwt 7 (0 + sevenDays) (generateToken 7 0 { id := 1, email := "a@b.c", created_at := 0 }) = none :=
  c6_token_lifecycle 7 0 604800 { id := 1, email := "a@b.c", created_at := 0 }
    (by unfold sevenDays; omega)

/-! ## Claims C5 and C10 — the PATCH handler -/

/-- The update tail of the PATCH handler, specified: when the id belongs to a
member row of a table with unique ids, the update rewrites exactly that row
and returns it. -/
theorem runUpdate_spec (db : Db) (c : Canvas) (snap : Option JVal)
    (name : Option String) (hn : UniqueIds db) (hc : c ∈ db) :
    runUpdate c.id snap name db =
      (.ok (applyUpdate snap name c),
       db.map (fun x => if x.id == c.id then applyUpdate snap name x else x)) := by
  have hid : ∀ x : Canvas,
      ((if x.id == c.id then applyUpdate snap name x else x) : Canvas).id = x.id := by
    intro x
    split <;> rfl
  have hmem : applyUpdate snap name c ∈
      db.map (fun x => if x.id == c.id then applyUpdate snap name x else x) := by
    have := List.mem_map_of_mem
      (fun x => if x.id == c.id then applyUpdate snap name x else x) hc
    simpa using this
  have hnn : UniqueIds
      (db.map (fun x => if x.id == c.id then applyUpdate snap name x else x)) := by
    unfold UniqueIds
    rw [List.map_map]
    have hfun : (Canvas.id ∘ fun x => if x.id == c.id then applyUpdate snap name x else x)
        = Canvas.id := funext fun x => hid x
    rw [hfun]
    exact hn
  have hfilter : (db.map (fun x => if x.id == c.id then applyUpdate snap name x else x)).filter
      (fun x => x.id == c.id) = [applyUpdate snap name c] :=
    filter_eq_singleton hnn hmem _ (by simp [applyUpdate])
      (fun x hx hpx => by simpa [applyUpdate] using hpx)
  unfold runUpdate
  simp only [hfilter]

/-- C5: snapshot round-trip.  For every owner, document they own (in a table
with unique primary keys) and opaque snapshot blob `S` — the empty object
`JVal.blob []` included — `update(owner, doc, snapshot S)` succeeds and a
subsequent `get(owner, doc)` returns a record whose stored snapshot is
exactly `S`: the server never transforms the blob. -/
theorem c5_snapshot_roundtrip (owner : Nat) (db : Db) (c : Canvas) (S : JVal)
    (hn : UniqueIds db) (hc : c ∈ db) (hown : c.user_id = owner) :
    ∃ c' : Canvas,
      (patchCanvas owner c.id { snapshot := .val S, drawing_name := .undef } db).1
        = .ok c' ∧
      getCanvas owner c.id
        (patchCanvas owner c.id { snapshot := .val S, drawing_name := .undef } db).2
        = .ok c' ∧
      c'.snapshot = S := by
  subst hown
  have hfilter : db.filter (fun x => x.id == c.id && x.user_id == c.user_id) = [c] :=
    filter_eq_singleton hn hc _ (by simp) (fun x hx hpx => by
      simp only [Bool.and_eq_true, beq_iff_eq] at hpx
      exact hpx.1)
  have hpatch : patchCanvas c.user_id c.id
      { snapshot := .val S, drawing_name := .undef } db
      = runUpdate c.id (some S) none db := by
    unfold patchCanvas
    rw [hfilter]
  rw [hpatch, runUpdate_spec db c (some S) none hn hc]
  refine ⟨applyUpdate (some S) none c, rfl, ?_, rfl⟩
  have hid : ∀ x : Canvas,
      ((if x.id == c.id then applyUpdate (some S) none x else x) : Canvas).id = x.id := by
    intro x
    split <;> rfl
  have hmem : applyUpdate (some S) none c ∈
      db.map (fun x => if x.id == c.id then applyUpdate (some S) none x else x) := by
    have := List.mem_map_of_mem
      (fun x => if x.id == c.id then applyUpdate (some S) none x else x) hc
    simpa using this
  have hnn : UniqueIds
      (db.map (fun x => if x.id == c.id then applyUpdate (some S) none x else x)) := by
    unfold UniqueIds
    rw [List.map_map]
    have hfun : (Canvas.id ∘ fun x => if x.id == c.id then applyUpdate (some S) none x else x)
        = Canvas.id := funext fun x => hid x
    rw [hfun]
    exact hn
  have hfilter2 : (db.map
        (fun x => if x.id == c.id then applyUpdate (some S) none x else x)).filter
      (fun x => x.id == c.id && x.user_id == c.user_id)
      = [applyUpdate (some S) none c] :=
    filter_eq_singleton hnn hmem _ (by simp [applyUpdate])
      (fun x hx hpx => by
        simp only [Bool.and_eq_true, beq_iff_eq] at hpx
        simpa [applyUpdate] using hpx.1)
  unfold getCanvas
  rw [hfilter2]

/-- Witness for `c5_snapshot_roundtrip`: write the empty object `{}` into
canvas 1 and read it back. -/
theorem c5_snapshot_roundtrip_witness :
    ∃ c' : Canvas,
      (patchCanvas 10 1 { snapshot := .val (.blob []), drawing_name := .undef }
          [{ id := 1, user_id := 10, drawing_name := "doc", snapshot := .null }]).1
        = .ok c' ∧
      getCanvas 10 1
        (patchCanvas 10 1 { snapshot := .val (.blob []), drawing_name := .undef }
          [{ id := 1, user_id := 10, drawing_name := "doc", snapshot := .null }]).2
        = .ok c' ∧
      c'.snapshot = .blob [] :=
  c5_snapshot_roundtrip 10
    [{ id := 1, user_id := 10, drawing_name := "doc", snapshot := .null }]
    { id := 1, user_id := 10, drawing_name := "doc", snapshot := .null }
    (.blob []) (by unfold UniqueIds; decide) (by decide) rfl

/-- C10: an authenticated, owner-scoped PATCH whose body carries
`drawing_name: null` reaches the field-building step (null is a supplied
field, `null !== undefined`), where `null.trim()` throws a `TypeError`; the
outer catch converts it to a 500 internal error — not a 400 validation error
and not a successful update, and the table is untouched. -/
theorem c10_null_name_500 (userId : Nat) (db : Db) (c : Canvas)
    (snapField : JsField) (hn : UniqueIds db) (hc : c ∈ db)
    (hown : c.user_id = userId) :
    patchCanvas userId c.id { snapshot := snapField, drawing_name := .val .null } db
      = (.internalError, db) ∧
    PatchResult.internalError.status = 500 := by
  subst hown
  have hfilter : db.filter (fun x => x.id == c.id && x.user_id == c.user_id) = [c] :=
    filter_eq_singleton hn hc _ (by simp) (fun x hx hpx => by
      simp only [Bool.and_eq_true, beq_iff_eq] at hpx
      exact hpx.1)
  refine ⟨?_, rfl⟩
  unfold patchCanvas
  rw [hfilter]
  rfl

/-- Witness for `c10_null_name_500`: a null `drawing_name` (with a snapshot
also supplied) on an owned canvas yields the 500, leaving the row as it
was. -/
theorem c10_null_name_500_witness :
    patchCanvas 10 1 { snapshot := .val (.blob [7]), drawing_name := .val .null }
        [{ id := 1, user_id := 10, drawing_name := "doc", snapshot := .null }]
      = (.internalError,
         [{ id := 1, user_id := 10, drawing_name := "doc", snapshot := .null }]) ∧
    PatchResult.internalError.status = 500 :=
  c10_null_name_500 10
    [{ id := 1, user_id := 10, drawing_name := "doc", snapshot := .null }]
    { id := 1, user_id := 10, drawing_name := "doc", snapshot := .null }
    (.val (.blob [7])) (by unfold UniqueIds; decide) (by decide) rfl

/-! ## Claims C7 and C8 — signup -/

/-- C7 (claim as stated, refuted on the success status): a valid signup with
a fresh account succeeds, but the handler sends the body with `res.json(...)`,
i.e. HTTP 200 — not the claimed 201. -/
theorem c7_counterexample :
    (signup 0 0 (some "a@b.c") (some "secret1") false 1 0).status = 200 ∧
    (signup 0 0 (some "a@b.c") (some "secret1") false 1 0).status ≠ 201 := by
  constructor <;> decide

/-- C7 (amended): a successful `POST /auth/signup` responds with HTTP status
200 (via `res.json`) and a body containing the created user's id, email and
created_at plus a freshly signed token; a missing or empty field and an
identity-store conflict each respond with 400. -/
theorem c7_signup_statuses (secret now : Nat) (e p : String) (conflict : Bool)
    (newId createdAt : Nat) (he : e ≠ "") (hp : 6 ≤ p.length) :
    (signup secret now (some e) (some p) false newId createdAt =
      .created { id := newId, email := e, created_at := createdAt }
        (generateToken secret now { id := newId, email := e, created_at := createdAt }) ∧
     (signup secret now (some e) (some p) false newId createdAt).status = 200) ∧
    (signup secret now (some e) (some p) true newId createdAt = .storeConflict ∧
     (signup secret now (some e) (some p) true newId createdAt).status = 400) ∧
    (∀ email pw : Option String,
      falsy email = true ∨ falsy pw = true ∨ (∃ q, pw = some q ∧ q.length < 6) →
      (signup secret now email pw conflict newId createdAt).status = 400) := by
  have hpe : p ≠ "" := by
    intro hcon
    rw [hcon] at hp
    simp at hp
  have hfe : falsy (some e) = false := by
    simp only [falsy, beq_eq_false_iff_ne, ne_eq]
    exact he
  have hfp : falsy (some p) = false := by
    simp only [falsy, beq_eq_false_iff_ne, ne_eq]
    exact hpe
  have hnlt : ¬ p.length < 6 := Nat.not_lt.mpr hp
  refine ⟨⟨?_, ?_⟩, ⟨?_, ?_⟩, ?_⟩
  · simp [signup, hfe, hfp, hnlt]
  · simp [signup, hfe, hfp, hnlt, SignupResult.status]
  · simp [signup, hfe, hfp, hnlt]
  · simp [signup, hfe, hfp, hnlt, SignupResult.status]
  · intro email pw h
    rcases h with h | h | ⟨q, rfl, hq⟩
    · simp [signup, h, SignupResult.status]
    · simp [signup, h, SignupResult.status]
    · by_cases hfem : falsy email = true
      · simp [signup, hfem, SignupResult.status]
      · by_cases hfq : falsy (some q) = true
        · simp [signup, hfq, SignupResult.status]
        · simp only [Bool.not_eq_true] at hfem hfq
          simp [signup, hfem, hfq, hq, SignupResult.status]

/-- Witness for `c7_signup_statuses` at a concrete signup. -/
theorem c7_signup_statuses_witness :
    (signup 5 9 (some "a@b.c") (some "hunter2") false 1 3 =
      .created { id := 1, email := "a@b.c", created_at := 3 }
        (generateToken 5 9 { id := 1, email := "a@b.c", created_at := 3 }) ∧
     (signup 5 9 (some "a@b.c") (some "hunter2") false 1 3).status = 200) ∧
    (signup 5 9 (some "a@b.c") (some "hunter2") true 1 3 = .storeConflict ∧
     (signup 5 9 (some "a@b.c") (some "hunter2") true 1 3).status = 400) ∧
    (∀ email pw : Option String,
      falsy email = true ∨ falsy pw = true ∨ (∃ q, pw = some q ∧ q.length < 6) →
      (signup 5 9 email pw false 1 3).status = 400) :=
  c7_signup_statuses 5 9 "a@b.c" "hunter2" false 1 3 (by decide) (by decide)

/-- C8: a signup password shorter than 6 characters always draws a 400
validation response (either the missing-field message when it is empty or
absent, or the length message); a password of length ≥ 6 never trips the
length check — any remaining failure is the missing-email validation or the
identity store's conflict. -/
theorem c8_password_length (secret now : Nat) (email : Option String)
    (p : String) (conflict : Bool) (newId createdAt : Nat) :
    (p.length < 6 →
      (signup secret now email (some p) conflict newId createdAt).status = 400) ∧
    (6 ≤ p.length →
      signup secret now email (some p) conflict newId createdAt ≠ .shortPassword ∧
      (signup secret now email (some p) conflict newId createdAt = .missingFields →
        falsy email = true) ∧
      (signup secret now email (some p) conflict newId createdAt = .storeConflict →
        conflict = true)) := by
  constructor
  · intro hq
    by_cases hfem : falsy email = true
    · simp [signup, hfem, SignupResult.status]
    · by_cases hfq : falsy (some p) = true
      · simp [signup, hfq, SignupResult.status]
      · simp only [Bool.not_eq_true] at hfem hfq
        simp [signup, hfem, hfq, hq, SignupResult.status]
  · intro hp
    have hpe : p ≠ "" := by
      intro hcon
      rw [hcon] at hp
      simp at hp
    have hfp : falsy (some p) = false := by
      simp only [falsy, beq_eq_false_iff_ne, ne_eq]
      exact hpe
    have hnlt : ¬ p.length < 6 := Nat.not_lt.mpr hp
    by_cases hfem : falsy email = true
    · refine ⟨?_, fun _ => hfem, ?_⟩
      · simp [signup, hfem]
      · intro hcon
        simp [signup, hfem] at hcon
    · simp only [Bool.not_eq_true] at hfem
      cases hconf : conflict
      · refine ⟨?_, ?_, ?_⟩
        · simp [signup, hfem, hfp, hnlt]
        · intro hcon
          simp [signup, hfem, hfp, hnlt] at hcon
        · intro hcon
          simp [signup, hfem, hfp, hnlt] at hcon
      · refine ⟨?_, ?_, fun _ => rfl⟩
        · simp [signup, hfem, hfp, hnlt]
        · intro hcon
          simp [signup, hfem, hfp, hnlt] at hcon

/-- Witness for `c8_password_length`: the five-character password "short"
draws a 400; the six-character password "secret" never trips the length
check. -/
theorem c8_password_length_witness :
    (signup 0 0 (some "a@b.c") (some "short") false 1 0).status = 400 ∧
    signup 0 0 (some "a@b.c") (some "secret") false 1 0 ≠ .shortPassword :=
  ⟨(c8_password_length 0 0 (some "a@b.c") "short" false 1 0).1 (by decide),
   ((c8_password_length 0 0 (some "a@b.c") "secret" false 1 0).2 (by decide)).1⟩

/-! ## Claims C2 and C3 — the client auto-save state machine -/

/-- A pending debounce deadline strictly in the future does not fire. -/
theorem fireTimerIfDue_not_due (s : Session) (t : Nat)
    (h : ∀ d, s.timer = some d → t < d) : fireTimerIfDue t s = s := by
  unfold fireTimerIfDue
  cases hst : s.timer with
  | none => rfl
  | some d =>
    have hd := h d hst
    simp [Nat.not_le.mpr hd]

/-- A mutation whose time precedes any pending deadline only marks the
session unsaved, reschedules the debounce and advances the document. -/
theorem stepEv_mutate (s : Session) (t : Nat)
    (h : ∀ d, s.timer = some d → t < d) :
    stepEv t .mutate s =
      { status := .unsaved, timer := some (t + 3), doc := s.doc + 1,
        inFlight := s.inFlight, writes := s.writes } := by
  unfold stepEv
  rw [fireTimerIfDue_not_due s t h]
  rfl

/-- A burst of mutations during which no debounce deadline is reached leaves
the session `unsaved` with some deadline pending, advances the document by
one per mutation, and starts no write at all. -/
theorem run_mut_burst (ts : List Nat) (s : Session)
    (h : chainFrom s.timer ts) (hne : ts ≠ []) :
    ∃ d, run (mutTrace ts) s =
      { status := .unsaved, timer := some d, doc := s.doc + ts.length,
        inFlight := s.inFlight, writes := s.writes } := by
  induction ts generalizing s with
  | nil => exact absurd rfl hne
  | cons t rest ih =>
    have hlt : ∀ d, s.timer = some d → t < d := by
      intro d hst
      rw [hst] at h
      unfold chainFrom at h
      exact h.1
    have hstep := stepEv_mutate s t hlt
    have hrun : run (mutTrace (t :: rest)) s
        = run (mutTrace rest) (stepEv t .mutate s) := rfl
    have hchain : chainFrom (some (t + 3)) rest := by
      cases hst : s.timer with
      | none =>
        rw [hst] at h
        exact h
      | some d =>
        rw [hst] at h
        unfold chainFrom at h
        exact h.2
    cases rest with
    | nil =>
      refine ⟨t + 3, ?_⟩
      rw [hrun, hstep]
      rfl
    | cons t' rest' =>
      obtain ⟨d, hd⟩ :=
        ih (⟨.unsaved, some (t + 3), s.doc + 1, s.inFlight, s.writes⟩ : Session)
          hchain (by simp)
      refine ⟨d, ?_⟩
      rw [hrun, hstep, hd]
      simp only [Session.mk.injEq, List.length_cons, true_and, and_true]
      omega

/-- C3: a burst of `N ≥ 1` local mutations, each fired within less than the
3-unit debounce interval of the previous one, produces exactly one update
write once the burst settles, and the snapshot carried by that single write
is the live document state after the Nth mutation (the save reads the current
snapshot, not a copy frozen at debounce start). -/
theorem c3_debounce_coalescing (ts : List Nat) (hne : ts ≠ [])
    (hb : TightBurst ts) :
    (settle (run (mutTrace ts) initSession)).writes = [ts.length] ∧
    (settle (run (mutTrace ts) initSession)).doc = ts.length := by
  obtain ⟨d, hd⟩ := run_mut_burst ts initSession hb hne
  rw [hd]
  unfold settle saveCanvas initSession
  simp

/-- Witness for `c3_debounce_coalescing`: three mutations at times 0, 1, 2
(gaps below 3) coalesce into the single write `[3]`. -/
theorem c3_debounce_coalescing_witness :
    (settle (run (mutTrace [0, 1, 2]) initSession)).writes = [3] ∧
    (settle (run (mutTrace [0, 1, 2]) initSession)).doc = 3 :=
  c3_debounce_coalescing [0, 1, 2] (by decide)
    (by norm_num [TightBurst, chainFrom])

/-- C2 (claim as stated, refuted): one mutation at time 0 lets the debounced
write start once its 3-unit deadline passes; a Ctrl+S manual save arriving at
time 4 — while that write is still in flight and the status is `saving` —
starts a second write immediately.  Two writes are then in flight at once
(`inFlight = 2`), violating "at most one network write is in flight", and
the second write was issued during, not after, the first. -/
theorem c2_counterexample :
    (run [(0, Ev.mutate), (4, Ev.manualKey)] initSession).inFlight = 2 ∧
    (run [(0, Ev.mutate), (4, Ev.manualKey)] initSession).writes = [1, 1] := by
  constructor <;> rfl

/-- C2 (amended): the component has no queued-intent flag.  A manual save
issued through the keyboard shortcut while the state is `Saving` starts one
additional write immediately — concurrent with the in-flight one — rather
than after it completes; a manual save attempted through the Save button
while `Saving` is ignored entirely (the button is disabled), triggering zero
additional writes. -/
theorem c2_manual_save_while_saving (s : Session) (t : Nat)
    (hs : s.status = .saving) :
    handle t .manualButton s = s ∧
    handle t .manualKey s =
      { status := .saving, timer := none, doc := s.doc,
        inFlight := s.inFlight + 1, writes := s.writes ++ [s.doc] } := by
  constructor
  · unfold handle
    rw [hs]
    rfl
  · rfl

/-- Witness for `c2_manual_save_while_saving` on a concrete saving session. -/
theorem c2_manual_save_while_saving_witness :
    handle 9 .manualButton
        { status := .saving, timer := none, doc := 5, inFlight := 1, writes := [4] } =
      { status := .saving, timer := none, doc := 5, inFlight := 1, writes := [4] } ∧
    handle 9 .manualKey
        { status := .saving, timer := none, doc := 5, inFlight := 1, writes := [4] } =
      { status := .saving, timer := none, doc := 5,
        inFlight := 1 + 1, writes := [4] ++ [5] } :=
  c2_manual_save_while_saving
    { status := .saving, timer := none, doc := 5, inFlight := 1, writes := [4] }
    9 rfl
